import Mathlib

/-!
Verification of the authentication interceptor pipeline in
`src/frontend/src/lib/api.ts`.

The file embeds, as executable Lean definitions:
  * the module-level configuration `PUBLIC_PATHS` (lines 12-17) and the
    module-level flag `isHandlingUnauthorized` (line 9), the latter as
    explicit state threaded through the handlers;
  * the request interceptor (lines 78-93), which fetches the session and
    attaches a bearer token header;
  * the response error interceptor (lines 96-135), which classifies 401
    failures, deduplicates concurrent recovery via the flag, signs out,
    redirects, and schedules the flag reset;
  * the JavaScript primitives the code calls: `String.prototype.startsWith`
    and `encodeURIComponent`;
  * a small-step interleaving semantics for N concurrent 401 handlers
    racing on the shared flag, whose atomic segments are exactly the
    code between suspension points (the only suspension inside the
    handler is the awaited sign-out call).
-/

namespace ApiGateway

/-- Character-level prefix test: the semantics of the JavaScript primitive
`String.prototype.startsWith` used at line 104 (`pathname.startsWith(p)`). -/
def charsLead : List Char → List Char → Bool
  | _, [] => true
  | [], _ :: _ => false
  | a :: as, b :: bs => a == b && charsLead as bs

/-- `s.startsWith(p)` on whole strings. -/
def strStartsWith (s p : String) : Bool := charsLead s.data p.data

/-- `PUBLIC_PATHS` (api.ts lines 12-17): routes where a 401 must not force a
redirect to login. -/
def PUBLIC_PATHS : List String :=
  ["/login", "/signup", "/forgot-password", "/reset-password"]

/-- Line 100: `window.location.pathname || '/'` — JavaScript falsiness of a
string is emptiness, so an absent/empty pathname defaults to `/`. -/
def defaultPath (p : String) : String := if p = "" then "/" else p

/-- Line 104: `PUBLIC_PATHS.some((p) => pathname.startsWith(p))`. -/
def isPublicPath (p : String) : Bool :=
  PUBLIC_PATHS.any fun q => strStartsWith p q

/-- UTF-8 encoding of one code point, as plain naturals (byte values). -/
def utf8Bytes (c : Char) : List Nat :=
  let n := c.toNat
  if n < 128 then [n]
  else if n < 2048 then [192 + n / 64, 128 + n % 64]
  else if n < 65536 then [224 + n / 4096, 128 + (n / 64) % 64, 128 + n % 64]
  else [240 + n / 262144, 128 + (n / 4096) % 64, 128 + (n / 64) % 64,
    128 + n % 64]

/-- Bytes left unescaped by the JavaScript primitive `encodeURIComponent`:
A-Z a-z 0-9 and `- . _ ~ ! * ( )` and the apostrophe (byte 39). -/
def isUnreservedByte (n : Nat) : Bool :=
  (65 ≤ n && n ≤ 90) || (97 ≤ n && n ≤ 122) || (48 ≤ n && n ≤ 57) ||
  n == 45 || n == 46 || n == 95 || n == 126 ||
  n == 33 || n == 42 || n == 39 || n == 40 || n == 41

/-- Uppercase hexadecimal digit for a value below 16. -/
def hexDigit (n : Nat) : Char :=
  if n < 10 then Char.ofNat (48 + n) else Char.ofNat (55 + n)

/-- Percent-escape of one byte, uppercase hex, e.g. byte 47 becomes `%2F`. -/
def pctByte (n : Nat) : String :=
  "%" ++ String.singleton (hexDigit (n / 16)) ++
    String.singleton (hexDigit (n % 16))

/-- The JavaScript primitive `encodeURIComponent` used at line 121:
UTF-8 encode, keep unreserved bytes, percent-escape the rest. -/
def encodeURIComponent (s : String) : String :=
  String.join (((s.data.map utf8Bytes).flatten).map fun b =>
    if isUnreservedByte b then String.singleton (Char.ofNat b) else pctByte b)

/-- A request failure as the response interceptor sees it: `response` is
`error.response?.status` (`none` when the error carries no HTTP response),
`cause` is an opaque identity tag distinguishing failure objects, so that
propagating the very same failure is expressible as equality. -/
structure Err where
  response : Option Nat
  cause : Nat
deriving DecidableEq, Repr

/-- `window.location` as read by the handler: pathname and query string. -/
structure Loc where
  pathname : String
  search : String
deriving DecidableEq, Repr

/-- Behaviour of the awaited `supabase.auth.signOut()` call (line 112):
it resolves, rejects (caught at line 113), or never settles. -/
inductive SignOutOutcome
  | ok
  | fails
  | hangs
deriving DecidableEq, Repr

/-- Observable side effects of the 401 handler, in program order:
the sign-out call (line 112), the `console.error` in the catch (line 115),
the `window.location.href` assignment (line 124), and the `setTimeout`
scheduling the flag reset (lines 128-130). -/
inductive Action
  | signOutCall
  | logSignOutError
  | setHref (url : String)
  | scheduleReset (delayMs : Nat)
deriving DecidableEq, Repr

/-- What the interceptor promise delivers to the caller: rejection with a
failure value, or no settlement at all (possible only when an awaited call
inside the handler never settles). -/
inductive HOutcome
  | rejected (e : Err)
  | pending
deriving DecidableEq, Repr

/-- Lines 121-124: the login redirect target,
`/login?returnUrl=` + `encodeURIComponent(pathname + window.location.search)`
with `pathname` the defaulted path captured at line 100. -/
def loginRedirectUrl (loc : Loc) : String :=
  "/login?returnUrl=" ++
    encodeURIComponent (defaultPath loc.pathname ++ loc.search)

/-- The response error interceptor, lines 98-134, for one failing request.
Inputs: the current value of `isHandlingUnauthorized`, the failure, the
current location, and the behaviour of the sign-out call. Output: the value
of the flag when the handler leaves it (at its last executed statement),
the side effects it performed in order, and what the caller receives.
Note that when the sign-out call never settles, execution stops at the
`await` of line 112: the redirect and the `setTimeout` never run, the flag
stays `true`, and the rejection of line 133 is never delivered. -/
def onResponseError (flag : Bool) (e : Err) (loc : Loc) (so : SignOutOutcome) :
    Bool × List Action × HOutcome :=
  if e.response = some 401 then
    if isPublicPath (defaultPath loc.pathname) then
      (flag, [], HOutcome.rejected e)
    else if flag then
      (flag, [], HOutcome.rejected e)
    else
      match so with
      | SignOutOutcome.hangs => (true, [Action.signOutCall], HOutcome.pending)
      | SignOutOutcome.ok =>
          (true,
            [Action.signOutCall, Action.setHref (loginRedirectUrl loc),
              Action.scheduleReset 1000],
            HOutcome.rejected e)
      | SignOutOutcome.fails =>
          (true,
            [Action.signOutCall, Action.logSignOutError,
              Action.setHref (loginRedirectUrl loc),
              Action.scheduleReset 1000],
            HOutcome.rejected e)
  else (flag, [], HOutcome.rejected e)

/-- An outgoing request descriptor: its headers as a string-keyed map
(`config.headers` of axios). -/
structure ReqConfig where
  headers : String → Option String

/-- Line 85: `config.headers.Authorization = \x60Bearer ...\x60`. -/
def withAuth (cfg : ReqConfig) (tok : String) : ReqConfig :=
  ⟨fun k => if k = "Authorization" then some ("Bearer " ++ tok) else
    cfg.headers k⟩

/-- The request interceptor, lines 78-93. `gs` is the result of awaiting
`supabase.auth.getSession()`: a thrown error, or an optional access token
(`none` when there is no session). Line 84 tests `session?.access_token`
for truthiness, so an empty token attaches no header. A thrown lookup
error makes the interceptor promise reject with that same error. -/
def onRequest (gs : Except Err (Option String)) (cfg : ReqConfig) :
    Except Err ReqConfig :=
  match gs with
  | Except.error e => Except.error e
  | Except.ok sess =>
      match sess with
      | some tok =>
          if tok ≠ "" then Except.ok (withAuth cfg tok) else Except.ok cfg
      | none => Except.ok cfg

/-- The request phase of the axios chain: the request interceptor runs, and
dispatch (transmission) happens only when it fulfilled. Returns the value
flowing down the chain and whether the request was transmitted. -/
def requestPhase (gs : Except Err (Option String)) (cfg : ReqConfig) :
    Except Err ReqConfig × Bool :=
  match onRequest gs cfg with
  | Except.error e => (Except.error e, false)
  | Except.ok c => (Except.ok c, true)

/-- A request descriptor with no headers yet, used to instantiate theorems
on a concrete input. -/
def baseCfg : ReqConfig := ⟨fun _ => none⟩

/-! ## Interleaving semantics for concurrent 401 handlers

Each concurrently failing request runs `onResponseError` on the shared
flag. The handler body is synchronous from entry up to the `await` of the
sign-out call (line 112) — in particular the check of the flag (line 109)
and the assignment setting it (line 110) lie in one atomic segment — and
synchronous again from the resumption after sign-out settles to the end.
A handler that observes the flag set, and a handler on an exempt path or
with a non-401 failure, completes in its first segment. The step relation
below interleaves these atomic segments arbitrarily; it covers every
schedule inside one cooldown window (before any scheduled reset fires). -/

/-- Control state of one 401 handler on a non-exempt path: not yet run,
suspended at the awaited sign-out call, or finished. `done true` marks the
handler that won the flag and completed its recovery; `done false` marks a
handler that observed the flag set and returned at once. -/
inductive PState
  | start
  | awaitingSignOut
  | done (won : Bool)
deriving DecidableEq, Repr

/-- Shared state of the race: the `isHandlingUnauthorized` flag, the number
of sign-out calls and redirects performed so far, and the control state of
every handler. -/
structure CState where
  flag : Bool
  signOuts : Nat
  redirects : Nat
  procs : List PState
deriving DecidableEq, Repr

/-- One atomic segment of one handler (handlers are identified by their
position in `procs`):
  * `win`: lines 109-112 with the flag observed clear — set the flag,
    start the sign-out call, suspend at the `await`;
  * `lose`: lines 109 and 133 with the flag observed set — return
    immediately, performing nothing;
  * `resume`: lines 113-133 after the sign-out call settles — redirect,
    schedule the reset, deliver the rejection. -/
inductive CStep : CState → CState → Prop
  | win (so rd : Nat) (l₁ l₂ : List PState) :
      CStep ⟨false, so, rd, l₁ ++ PState.start :: l₂⟩
        ⟨true, so + 1, rd, l₁ ++ PState.awaitingSignOut :: l₂⟩
  | lose (so rd : Nat) (l₁ l₂ : List PState) :
      CStep ⟨true, so, rd, l₁ ++ PState.start :: l₂⟩
        ⟨true, so, rd, l₁ ++ PState.done false :: l₂⟩
  | resume (b : Bool) (so rd : Nat) (l₁ l₂ : List PState) :
      CStep ⟨b, so, rd, l₁ ++ PState.awaitingSignOut :: l₂⟩
        ⟨b, so, rd + 1, l₁ ++ PState.done true :: l₂⟩

/-- Initial state of a burst of `N` concurrently failing requests: flag
clear, no side effects yet, every handler about to run. -/
def initC (N : Nat) : CState :=
  ⟨false, 0, 0, List.replicate N PState.start⟩

/-- Every handler has finished. -/
def allDone (s : CState) : Prop :=
  ∀ p ∈ s.procs, ∃ w, p = PState.done w

/-- Is this handler suspended at the sign-out call? -/
def isAwait : PState → Bool
  | PState.awaitingSignOut => true
  | _ => false

/-- Has this handler won the flag and completed its recovery? -/
def isWon : PState → Bool
  | PState.done true => true
  | _ => false

/-- Number of handlers currently suspended at the sign-out call. -/
def cntA (l : List PState) : Nat := l.countP isAwait

/-- Number of handlers that won the flag and completed their recovery. -/
def cntW (l : List PState) : Nat := l.countP isWon

/-- The race invariant: the sign-out count is the number of handlers at or
past the sign-out call, the redirect count the number past it, the flag is
set exactly when some handler won, at most one handler ever wins, and while
the flag is clear no handler has run at all. -/
def Inv (s : CState) : Prop :=
  s.signOuts = cntA s.procs + cntW s.procs
  ∧ s.redirects = cntW s.procs
  ∧ (s.flag = true ↔ 1 ≤ s.signOuts)
  ∧ s.signOuts ≤ 1
  ∧ (s.flag = false → ∀ p ∈ s.procs, p = PState.start)

/-! ## Claims about the request interceptor -/

/-- C3: when the session lookup throws, the request interceptor rejects
with that same error, the request is not transmitted, and the error —
which carries no HTTP response — passes through the response error
interceptor untouched, so the caller receives the lookup failure
unchanged. -/
theorem c3_lookup_failure :
    ∀ (err : Err) (cfg : ReqConfig) (flag : Bool) (loc : Loc)
      (so : SignOutOutcome), err.response = none →
      requestPhase (Except.error err) cfg = (Except.error err, false)
      ∧ onResponseError flag err loc so = (flag, [], HOutcome.rejected err) := by
  intro err cfg flag loc so hresp
  refine ⟨rfl, ?_⟩
  simp [onResponseError, hresp]

/-- Witness for `c3_lookup_failure` at a concrete lookup error. -/
theorem c3_lookup_failure_witness :
    (⟨none, 7⟩ : Err).response = none
    ∧ (requestPhase (Except.error ⟨none, 7⟩) baseCfg
        = (Except.error ⟨none, 7⟩, false)
      ∧ onResponseError false ⟨none, 7⟩ ⟨"/dashboard", ""⟩ SignOutOutcome.ok
        = (false, [], HOutcome.rejected ⟨none, 7⟩)) :=
  ⟨rfl, c3_lookup_failure ⟨none, 7⟩ baseCfg false ⟨"/dashboard", ""⟩
    SignOutOutcome.ok rfl⟩

/-- C7: with a non-empty token the transmitted descriptor carries
`Authorization: Bearer <token>` and is otherwise unchanged; with no
session, or an empty token, the descriptor goes out exactly as given. -/
theorem c7_auth_header :
    ∀ (tok : String) (cfg : ReqConfig), tok ≠ "" →
      (requestPhase (Except.ok (some tok)) cfg
          = (Except.ok (withAuth cfg tok), true)
        ∧ (withAuth cfg tok).headers "Authorization"
          = some ("Bearer " ++ tok)
        ∧ (∀ k, k ≠ "Authorization" →
            (withAuth cfg tok).headers k = cfg.headers k))
      ∧ requestPhase (Except.ok none) cfg = (Except.ok cfg, true)
      ∧ requestPhase (Except.ok (some "")) cfg = (Except.ok cfg, true) := by
  intro tok cfg htok
  refine ⟨⟨?_, rfl, ?_⟩, rfl, rfl⟩
  · simp [requestPhase, onRequest, htok]
  · intro k hk
    simp [withAuth, hk]

/-- Witness for `c7_auth_header` at a concrete token. -/
theorem c7_auth_header_witness :
    ("t" : String) ≠ ""
    ∧ ((requestPhase (Except.ok (some "t")) baseCfg
          = (Except.ok (withAuth baseCfg "t"), true)
        ∧ (withAuth baseCfg "t").headers "Authorization"
          = some ("Bearer " ++ "t")
        ∧ (∀ k, k ≠ "Authorization" →
            (withAuth baseCfg "t").headers k = baseCfg.headers k))
      ∧ requestPhase (Except.ok none) baseCfg = (Except.ok baseCfg, true)
      ∧ requestPhase (Except.ok (some "")) baseCfg
        = (Except.ok baseCfg, true)) :=
  ⟨by decide, c7_auth_header "t" baseCfg (by decide)⟩

/-! ## Claims about the response error interceptor, one handler at a time -/

/-- C5: whenever the handler settles (i.e. the sign-out call does not hang
forever), the caller receives exactly the original failure value — for
non-401 failures, for exempt paths, when recovery ran, and when the
sign-out step inside recovery failed. -/
theorem c5_original_failure :
    ∀ (flag : Bool) (e : Err) (loc : Loc) (so : SignOutOutcome),
      so ≠ SignOutOutcome.hangs →
      (onResponseError flag e loc so).2.2 = HOutcome.rejected e := by
  intro flag e loc so hso
  unfold onResponseError
  split
  · split
    · rfl
    · split
      · rfl
      · cases so with
        | hangs => exact absurd rfl hso
        | ok => rfl
        | fails => rfl
  · rfl

/-- Witness for `c5_original_failure`: a failing sign-out still delivers
the original error. -/
theorem c5_original_failure_witness :
    SignOutOutcome.fails ≠ SignOutOutcome.hangs
    ∧ (onResponseError false ⟨some 500, 1⟩ ⟨"/x", ""⟩
        SignOutOutcome.fails).2.2 = HOutcome.rejected ⟨some 500, 1⟩ :=
  ⟨by decide, c5_original_failure false ⟨some 500, 1⟩ ⟨"/x", ""⟩
    SignOutOutcome.fails (by decide)⟩

/-- C6: a 401 on a path matching a `PUBLIC_PATHS` prefix performs no
action at all — no sign-out, no redirect, flag untouched — and the
original failure is rejected to the caller. -/
theorem c6_exempt_path :
    ∀ (flag : Bool) (e : Err) (loc : Loc) (so : SignOutOutcome),
      e.response = some 401 →
      isPublicPath (defaultPath loc.pathname) = true →
      onResponseError flag e loc so = (flag, [], HOutcome.rejected e) := by
  intro flag e loc so h401 hpub
  simp [onResponseError, h401, hpub]

/-- Witness for `c6_exempt_path`: a 401 while on `/reset-password/abc`. -/
theorem c6_exempt_path_witness :
    (⟨some 401, 3⟩ : Err).response = some 401
    ∧ isPublicPath (defaultPath "/reset-password/abc") = true
    ∧ onResponseError false ⟨some 401, 3⟩ ⟨"/reset-password/abc", ""⟩
        SignOutOutcome.ok = (false, [], HOutcome.rejected ⟨some 401, 3⟩) :=
  ⟨rfl, by decide, c6_exempt_path false ⟨some 401, 3⟩
    ⟨"/reset-password/abc", ""⟩ SignOutOutcome.ok rfl (by decide)⟩

/-- C9: when the sign-out call rejects, the handler logs the error and
still redirects; the sign-out error never reaches the caller, who gets
the original 401 failure. -/
theorem c9_signout_failure_swallowed :
    ∀ (e : Err) (loc : Loc), e.response = some 401 →
      isPublicPath (defaultPath loc.pathname) = false →
      onResponseError false e loc SignOutOutcome.fails
        = (true,
          [Action.signOutCall, Action.logSignOutError,
            Action.setHref (loginRedirectUrl loc), Action.scheduleReset 1000],
          HOutcome.rejected e) := by
  intro e loc h401 hpub
  simp [onResponseError, h401, hpub]

/-- Witness for `c9_signout_failure_swallowed` on `/settings`. -/
theorem c9_signout_failure_swallowed_witness :
    (⟨some 401, 2⟩ : Err).response = some 401
    ∧ isPublicPath (defaultPath "/settings") = false
    ∧ onResponseError false ⟨some 401, 2⟩ ⟨"/settings", ""⟩
        SignOutOutcome.fails
      = (true,
        [Action.signOutCall, Action.logSignOutError,
          Action.setHref (loginRedirectUrl ⟨"/settings", ""⟩),
          Action.scheduleReset 1000],
        HOutcome.rejected ⟨some 401, 2⟩) :=
  ⟨rfl, by decide, c9_signout_failure_swallowed ⟨some 401, 2⟩
    ⟨"/settings", ""⟩ rfl (by decide)⟩

/-- C8: a recovery that reaches the redirect navigates to exactly
`/login?returnUrl=` followed by the URL-encoding of the captured path and
query string; on `/dashboard` with empty query this is
`/login?returnUrl=%2Fdashboard`. -/
theorem c8_redirect_url :
    ∀ (e : Err) (loc : Loc) (so : SignOutOutcome),
      e.response = some 401 →
      isPublicPath (defaultPath loc.pathname) = false →
      so ≠ SignOutOutcome.hangs →
      Action.setHref ("/login?returnUrl=" ++
          encodeURIComponent (defaultPath loc.pathname ++ loc.search))
        ∈ (onResponseError false e loc so).2.1
      ∧ (onResponseError false ⟨some 401, 5⟩ ⟨"/dashboard", ""⟩
          SignOutOutcome.ok).2.1
        = [Action.signOutCall,
            Action.setHref "/login?returnUrl=%2Fdashboard",
            Action.scheduleReset 1000] := by
  intro e loc so h401 hpub hso
  refine ⟨?_, by decide⟩
  cases so with
  | hangs => exact absurd rfl hso
  | ok => simp [onResponseError, h401, hpub, loginRedirectUrl]
  | fails => simp [onResponseError, h401, hpub, loginRedirectUrl]

/-- Witness for `c8_redirect_url` on `/dashboard`. -/
theorem c8_redirect_url_witness :
    ((⟨some 401, 5⟩ : Err).response = some 401
      ∧ isPublicPath (defaultPath "/dashboard") = false
      ∧ SignOutOutcome.ok ≠ SignOutOutcome.hangs)
    ∧ Action.setHref ("/login?returnUrl=" ++
        encodeURIComponent (defaultPath "/dashboard" ++ ""))
      ∈ (onResponseError false ⟨some 401, 5⟩ ⟨"/dashboard", ""⟩
          SignOutOutcome.ok).2.1 :=
  ⟨⟨rfl, by decide, by decide⟩,
    (c8_redirect_url ⟨some 401, 5⟩ ⟨"/dashboard", ""⟩ SignOutOutcome.ok rfl
      (by decide) (by decide)).1⟩

/-- C10: the exemption test is a raw character prefix test with no
segment boundary — `/reset-password-extra` and `/signup2` are exempt and
trigger no recovery on a 401 — the tested path defaults to `/` when the
navigation path is empty, and `/` itself is not exempt. -/
theorem c10_raw_prefix_match :
    (∀ (flag : Bool) (e : Err) (so : SignOutOutcome) (s : String),
      e.response = some 401 →
      onResponseError flag e ⟨"/reset-password-extra", s⟩ so
          = (flag, [], HOutcome.rejected e)
        ∧ onResponseError flag e ⟨"/signup2", s⟩ so
          = (flag, [], HOutcome.rejected e))
    ∧ isPublicPath "/reset-password-extra" = true
    ∧ isPublicPath "/signup2" = true
    ∧ defaultPath "" = "/"
    ∧ isPublicPath "/" = false := by
  refine ⟨?_, by decide, by decide, by decide, by decide⟩
  intro flag e so s h401
  have h1 : isPublicPath (defaultPath "/reset-password-extra") = true := by
    decide
  have h2 : isPublicPath (defaultPath "/signup2") = true := by decide
  exact ⟨by simp [onResponseError, h401, h1], by simp [onResponseError, h401, h2]⟩

/-- Witness for `c10_raw_prefix_match` at a concrete 401. -/
theorem c10_raw_prefix_match_witness :
    (⟨some 401, 4⟩ : Err).response = some 401
    ∧ (onResponseError false ⟨some 401, 4⟩ ⟨"/reset-password-extra", ""⟩
          SignOutOutcome.ok = (false, [], HOutcome.rejected ⟨some 401, 4⟩)
      ∧ onResponseError false ⟨some 401, 4⟩ ⟨"/signup2", ""⟩
          SignOutOutcome.ok = (false, [], HOutcome.rejected ⟨some 401, 4⟩)) :=
  ⟨rfl, c10_raw_prefix_match.1 false ⟨some 401, 4⟩ SignOutOutcome.ok "" rfl⟩

/-! ## Timing of the flag reset (C2) and of the caller's rejection (C4) -/

/-- C2 counterexample: the claim says the reset of the flag is scheduled
before any suspension point, so that a sign-out call that never completes
cannot prevent the flag from being cleared. In the code the `setTimeout`
stands after the awaited sign-out call: with a hanging sign-out the
handler stops at the `await`, no reset is ever scheduled, and the flag
stays set. -/
theorem c2_reset_counterexample :
    (onResponseError false ⟨some 401, 2⟩ ⟨"/dashboard", ""⟩
        SignOutOutcome.hangs).1 = true
    ∧ Action.scheduleReset 1000
      ∉ (onResponseError false ⟨some 401, 2⟩ ⟨"/dashboard", ""⟩
          SignOutOutcome.hangs).2.1 := by
  decide

/-- C2 (amended): the reset of the flag is scheduled for a 1000ms cooldown
measured from the point where the sign-out call settles and the redirect
has been issued — after the suspension point, not before it. When the
sign-out settles, the actions performed are the sign-out call (strictly
earlier) and then the reset scheduling as the very last action; when the
sign-out never settles, no reset is ever scheduled and the flag remains
set. -/
theorem c2_reset_after_signout :
    ∀ (e : Err) (loc : Loc) (so : SignOutOutcome),
      e.response = some 401 →
      isPublicPath (defaultPath loc.pathname) = false →
      (so ≠ SignOutOutcome.hangs →
        ∃ pre, (onResponseError false e loc so).2.1
            = pre ++ [Action.scheduleReset 1000]
          ∧ Action.signOutCall ∈ pre)
      ∧ (so = SignOutOutcome.hangs →
        (onResponseError false e loc so).1 = true
          ∧ Action.scheduleReset 1000
            ∉ (onResponseError false e loc so).2.1) := by
  intro e loc so h401 hpub
  cases so with
  | ok =>
      refine ⟨fun _ => ?_, fun h => by cases h⟩
      exact ⟨[Action.signOutCall, Action.setHref (loginRedirectUrl loc)],
        by simp [onResponseError, h401, hpub], by simp⟩
  | fails =>
      refine ⟨fun _ => ?_, fun h => by cases h⟩
      exact ⟨[Action.signOutCall, Action.logSignOutError,
          Action.setHref (loginRedirectUrl loc)],
        by simp [onResponseError, h401, hpub], by simp⟩
  | hangs =>
      refine ⟨fun h => absurd rfl h, fun _ => ?_⟩
      simp [onResponseError, h401, hpub]

/-- Witness for `c2_reset_after_signout` on `/settings`. -/
theorem c2_reset_after_signout_witness :
    ((⟨some 401, 6⟩ : Err).response = some 401
      ∧ isPublicPath (defaultPath "/settings") = false)
    ∧ ((SignOutOutcome.ok ≠ SignOutOutcome.hangs →
        ∃ pre, (onResponseError false ⟨some 401, 6⟩ ⟨"/settings", ""⟩
              SignOutOutcome.ok).2.1 = pre ++ [Action.scheduleReset 1000]
          ∧ Action.signOutCall ∈ pre)
      ∧ (SignOutOutcome.ok = SignOutOutcome.hangs →
        (onResponseError false ⟨some 401, 6⟩ ⟨"/settings", ""⟩
            SignOutOutcome.ok).1 = true
          ∧ Action.scheduleReset 1000
            ∉ (onResponseError false ⟨some 401, 6⟩ ⟨"/settings", ""⟩
                SignOutOutcome.ok).2.1)) :=
  ⟨⟨rfl, by decide⟩, c2_reset_after_signout ⟨some 401, 6⟩ ⟨"/settings", ""⟩
    SignOutOutcome.ok rfl (by decide)⟩

/-- C4 counterexample: the claim says the recovery sequence is dispatched
without being awaited, so that its duration never delays the rejection
delivered to the caller. In the code the winning handler awaits the
sign-out call inline: with a hanging sign-out the rejection is never
delivered, while with an instantly settling one it is — the outcome the
caller sees depends on the behaviour of the sign-out call. -/
theorem c4_await_counterexample :
    (onResponseError false ⟨some 401, 3⟩ ⟨"/settings", ""⟩
        SignOutOutcome.hangs).2.2 = HOutcome.pending
    ∧ (onResponseError false ⟨some 401, 3⟩ ⟨"/settings", ""⟩
        SignOutOutcome.ok).2.2 = HOutcome.rejected ⟨some 401, 3⟩ := by
  decide

/-- C4 (amended): the recovery sequence is awaited inline by the handler
of the request that wins the flag: that rejection of that caller is
delivered only once the sign-out call settles, and never if it never
settles. The delivered value, whenever delivery happens, is always the
original failure — recovery success or failure substitutes nothing — and
every handler that does not run the recovery (flag already set, exempt
path, or non-401 failure) rejects immediately with the original
failure. -/
theorem c4_inline_await :
    ∀ (flag : Bool) (e : Err) (loc : Loc) (so : SignOutOutcome),
      ((flag = false ∧ e.response = some 401
          ∧ isPublicPath (defaultPath loc.pathname) = false
          ∧ so = SignOutOutcome.hangs) →
        (onResponseError flag e loc so).2.2 = HOutcome.pending)
      ∧ (so ≠ SignOutOutcome.hangs →
        (onResponseError flag e loc so).2.2 = HOutcome.rejected e)
      ∧ (flag = true →
        (onResponseError flag e loc so).2.2 = HOutcome.rejected e) := by
  intro flag e loc so
  refine ⟨?_, ?_, ?_⟩
  · rintro ⟨hf, h401, hpub, hso⟩
    subst hf; subst hso
    simp [onResponseError, h401, hpub]
  · intro hso
    unfold onResponseError
    split
    · split
      · rfl
      · split
        · rfl
        · cases so with
          | hangs => exact absurd rfl hso
          | ok => rfl
          | fails => rfl
    · rfl
  · intro hf
    subst hf
    unfold onResponseError
    split
    · split
      · rfl
      · rfl
    · rfl

/-- Witness for `c4_inline_await`: a hanging sign-out withholds the
rejection of the winning caller forever. -/
theorem c4_inline_await_witness :
    (false = false ∧ (⟨some 401, 8⟩ : Err).response = some 401
      ∧ isPublicPath (defaultPath "/home") = false
      ∧ SignOutOutcome.hangs = SignOutOutcome.hangs)
    ∧ (onResponseError false ⟨some 401, 8⟩ ⟨"/home", ""⟩
        SignOutOutcome.hangs).2.2 = HOutcome.pending :=
  ⟨⟨rfl, rfl, by decide, rfl⟩,
    (c4_inline_await false ⟨some 401, 8⟩ ⟨"/home", ""⟩
      SignOutOutcome.hangs).1 ⟨rfl, rfl, by decide, rfl⟩⟩

/-! ## The concurrent deduplication argument (C1) -/

/-- A list of handlers that have not run yet contains no suspended one. -/
theorem cntA_of_all_start {l : List PState}
    (h : ∀ p ∈ l, p = PState.start) : cntA l = 0 := by
  apply List.countP_eq_zero.mpr
  intro p hp
  rw [h p hp]
  simp [isAwait]

/-- A list of handlers that have not run yet contains no completed
winner. -/
theorem cntW_of_all_start {l : List PState}
    (h : ∀ p ∈ l, p = PState.start) : cntW l = 0 := by
  apply List.countP_eq_zero.mpr
  intro p hp
  rw [h p hp]
  simp [isWon]

/-- `cntA` distributes over append. -/
theorem cntA_append (l₁ l₂ : List PState) :
    cntA (l₁ ++ l₂) = cntA l₁ + cntA l₂ := by
  simp [cntA, List.countP_append]

/-- `cntW` distributes over append. -/
theorem cntW_append (l₁ l₂ : List PState) :
    cntW (l₁ ++ l₂) = cntW l₁ + cntW l₂ := by
  simp [cntW, List.countP_append]

/-- A handler at `start` is not suspended. -/
theorem cntA_cons_start (l : List PState) :
    cntA (PState.start :: l) = cntA l := by
  simp [cntA, List.countP_cons, isAwait]

/-- A suspended handler counts once. -/
theorem cntA_cons_await (l : List PState) :
    cntA (PState.awaitingSignOut :: l) = cntA l + 1 := by
  simp [cntA, List.countP_cons, isAwait]

/-- A finished handler is not suspended. -/
theorem cntA_cons_done (w : Bool) (l : List PState) :
    cntA (PState.done w :: l) = cntA l := by
  simp [cntA, List.countP_cons, isAwait]

/-- A handler at `start` has not won. -/
theorem cntW_cons_start (l : List PState) :
    cntW (PState.start :: l) = cntW l := by
  simp [cntW, List.countP_cons, isWon]

/-- A suspended handler has not completed its win. -/
theorem cntW_cons_await (l : List PState) :
    cntW (PState.awaitingSignOut :: l) = cntW l := by
  simp [cntW, List.countP_cons, isWon]

/-- A handler finished as winner counts once. -/
theorem cntW_cons_doneT (l : List PState) :
    cntW (PState.done true :: l) = cntW l + 1 := by
  simp [cntW, List.countP_cons, isWon]

/-- A handler finished as loser does not count. -/
theorem cntW_cons_doneF (l : List PState) :
    cntW (PState.done false :: l) = cntW l := by
  simp [cntW, List.countP_cons, isWon]

/-- The race invariant holds in the initial state of any burst. -/
theorem inv_initC (N : Nat) : Inv (initC N) := by
  have hall : ∀ p ∈ List.replicate N PState.start, p = PState.start :=
    fun p hp => List.eq_of_mem_replicate hp
  refine ⟨?_, ?_, ?_, ?_, ?_⟩
  · simp [initC, cntA_of_all_start hall, cntW_of_all_start hall]
  · simp [initC, cntW_of_all_start hall]
  · simp [initC]
  · simp [initC]
  · intro _
    exact hall

/-- Every atomic segment preserves the race invariant. -/
theorem inv_cstep {s s' : CState} (h : CStep s s') (hs : Inv s) : Inv s' := by
  cases h with
  | win so rd l₁ l₂ =>
      obtain ⟨h1, h2, h3, h4, h5⟩ := hs
      dsimp only [Inv] at h1 h2 h3 h4 h5 ⊢
      have hall := h5 rfl
      have hall₁ : ∀ p ∈ l₁, p = PState.start :=
        fun p hp => hall p (List.mem_append_left _ hp)
      have hall₂ : ∀ p ∈ l₂, p = PState.start :=
        fun p hp => hall p (List.mem_append_right _ (List.mem_cons_of_mem _ hp))
      have hA1 : cntA l₁ = 0 := cntA_of_all_start hall₁
      have hA2 : cntA l₂ = 0 := cntA_of_all_start hall₂
      have hW1 : cntW l₁ = 0 := cntW_of_all_start hall₁
      have hW2 : cntW l₂ = 0 := cntW_of_all_start hall₂
      have hso0 : so = 0 := by
        by_contra hne
        exact Bool.false_ne_true (h3.mpr (by omega))
      have eA : cntA (l₁ ++ PState.awaitingSignOut :: l₂)
          = cntA l₁ + cntA l₂ + 1 := by
        rw [cntA_append, cntA_cons_await]; omega
      have eW : cntW (l₁ ++ PState.awaitingSignOut :: l₂)
          = cntW l₁ + cntW l₂ := by
        rw [cntW_append, cntW_cons_await]
      refine ⟨by omega, ?_, ⟨fun _ => by omega, fun _ => rfl⟩, by omega, ?_⟩
      · have eW0 : cntW (l₁ ++ PState.start :: l₂) = cntW l₁ + cntW l₂ := by
          rw [cntW_append, cntW_cons_start]
        omega
      · intro hcontra
        exact absurd hcontra (by simp)
  | lose so rd l₁ l₂ =>
      obtain ⟨h1, h2, h3, h4, h5⟩ := hs
      dsimp only [Inv] at h1 h2 h3 h4 h5 ⊢
      have eA : cntA (l₁ ++ PState.start :: l₂) = cntA l₁ + cntA l₂ := by
        rw [cntA_append, cntA_cons_start]
      have eW : cntW (l₁ ++ PState.start :: l₂) = cntW l₁ + cntW l₂ := by
        rw [cntW_append, cntW_cons_start]
      have eA' : cntA (l₁ ++ PState.done false :: l₂)
          = cntA l₁ + cntA l₂ := by
        rw [cntA_append, cntA_cons_done]
      have eW' : cntW (l₁ ++ PState.done false :: l₂)
          = cntW l₁ + cntW l₂ := by
        rw [cntW_append, cntW_cons_doneF]
      refine ⟨by omega, by omega, h3, h4, ?_⟩
      intro hcontra
      exact absurd hcontra (by simp)
  | resume b so rd l₁ l₂ =>
      obtain ⟨h1, h2, h3, h4, h5⟩ := hs
      dsimp only [Inv] at h1 h2 h3 h4 h5 ⊢
      have eA : cntA (l₁ ++ PState.awaitingSignOut :: l₂)
          = cntA l₁ + cntA l₂ + 1 := by
        rw [cntA_append, cntA_cons_await]; omega
      have eW : cntW (l₁ ++ PState.awaitingSignOut :: l₂)
          = cntW l₁ + cntW l₂ := by
        rw [cntW_append, cntW_cons_await]
      have eA' : cntA (l₁ ++ PState.done true :: l₂)
          = cntA l₁ + cntA l₂ := by
        rw [cntA_append, cntA_cons_done]
      have eW' : cntW (l₁ ++ PState.done true :: l₂)
          = cntW l₁ + cntW l₂ + 1 := by
        rw [cntW_append, cntW_cons_doneT]; omega
      have hb : b = true := h3.mpr (by omega)
      subst hb
      refine ⟨by omega, by omega, h3, h4, ?_⟩
      intro hcontra
      exact absurd hcontra (by simp)

/-- The race invariant holds in every reachable state. -/
theorem inv_reaches {s s' : CState}
    (h : Relation.ReflTransGen CStep s s') (hs : Inv s) : Inv s' := by
  induction h with
  | refl => exact hs
  | tail _ hstep ih => exact inv_cstep hstep ih

/-- Atomic segments neither create nor destroy handlers. -/
theorem len_cstep {s s' : CState} (h : CStep s s') :
    s'.procs.length = s.procs.length := by
  cases h <;> simp

/-- The number of handlers is constant along every schedule. -/
theorem len_reaches {s s' : CState}
    (h : Relation.ReflTransGen CStep s s') :
    s'.procs.length = s.procs.length := by
  induction h with
  | refl => rfl
  | tail _ hstep ih => rw [len_cstep hstep, ih]

/-- C1: in a burst of N ≥ 1 concurrently failing 401 requests on a
non-exempt path, under every interleaving of the handlers that runs all of
them to completion (within one cooldown window), the sign-out call is made
exactly once and the redirect is issued exactly once; and a handler that
observes the in-flight flag already set performs no action at all and
simply rejects the original failure. -/
theorem c1_single_recovery :
    (∀ (N : Nat) (s : CState), 1 ≤ N →
      Relation.ReflTransGen CStep (initC N) s → allDone s →
      s.signOuts = 1 ∧ s.redirects = 1)
    ∧ (∀ (e : Err) (loc : Loc) (so : SignOutOutcome),
      e.response = some 401 →
      isPublicPath (defaultPath loc.pathname) = false →
      onResponseError true e loc so = (true, [], HOutcome.rejected e)) := by
  constructor
  · intro N s hN htr hdone
    obtain ⟨h1, h2, h3, h4, h5⟩ := inv_reaches htr (inv_initC N)
    have hlen : s.procs.length = N := by
      have := len_reaches htr
      simpa [initC] using this
    have hA : cntA s.procs = 0 := by
      apply List.countP_eq_zero.mpr
      intro p hp
      obtain ⟨w, hw⟩ := hdone p hp
      rw [hw]
      simp [isAwait]
    have hflag : s.flag = true := by
      rcases hfl : s.flag with _ | _
      · have hall := h5 hfl
        have hne : s.procs ≠ [] := by
          intro h0
          rw [h0] at hlen
          simp at hlen
          omega
        obtain ⟨p, hp⟩ := List.exists_mem_of_ne_nil _ hne
        obtain ⟨w, hw⟩ := hdone p hp
        have hst := hall p hp
        rw [hw] at hst
        cases hst
      · rfl
    have h1le : 1 ≤ s.signOuts := h3.mp hflag
    have hsoEq : s.signOuts = 1 := le_antisymm h4 h1le
    exact ⟨hsoEq, by omega⟩
  · intro e loc so h401 hpub
    simp [onResponseError, h401, hpub]

/-- Witness for `c1_single_recovery`: the burst of one handler, run to
completion, and a concrete handler that observes the flag set. -/
theorem c1_single_recovery_witness :
    (1 ≤ 1
      ∧ Relation.ReflTransGen CStep (initC 1)
          ⟨true, 1, 1, [PState.done true]⟩
      ∧ allDone ⟨true, 1, 1, [PState.done true]⟩
      ∧ (⟨some 401, 9⟩ : Err).response = some 401
      ∧ isPublicPath (defaultPath "/a") = false)
    ∧ ((⟨true, 1, 1, [PState.done true]⟩ : CState).signOuts = 1
      ∧ (⟨true, 1, 1, [PState.done true]⟩ : CState).redirects = 1)
    ∧ onResponseError true ⟨some 401, 9⟩ ⟨"/a", ""⟩ SignOutOutcome.ok
      = (true, [], HOutcome.rejected ⟨some 401, 9⟩) := by
  have h1 : CStep (initC 1) ⟨true, 1, 0, [PState.awaitingSignOut]⟩ :=
    CStep.win 0 0 [] []
  have h2 : CStep ⟨true, 1, 0, [PState.awaitingSignOut]⟩
      ⟨true, 1, 1, [PState.done true]⟩ :=
    CStep.resume true 1 0 [] []
  have htr : Relation.ReflTransGen CStep (initC 1)
      ⟨true, 1, 1, [PState.done true]⟩ :=
    Relation.ReflTransGen.tail (Relation.ReflTransGen.single h1) h2
  have hdone : allDone ⟨true, 1, 1, [PState.done true]⟩ := by
    intro p hp
    rw [List.mem_singleton] at hp
    exact ⟨true, hp⟩
  exact ⟨⟨le_refl 1, htr, hdone, rfl, by decide⟩,
    c1_single_recovery.1 1 _ (le_refl 1) htr hdone,
    c1_single_recovery.2 ⟨some 401, 9⟩ ⟨"/a", ""⟩ SignOutOutcome.ok rfl
      (by decide)⟩

end ApiGateway
